import Mathlib

/-!
Verification development for the `mcp-performance-win` MCP browser-automation
server (`src/mcp/server.js`).  The JavaScript source is shallowly embedded:
pure helpers become Lean functions, the module-level mutable state
(`globalBrowser`, `globalPage`) becomes an explicit state record threaded
through the session-manager functions, and every asynchronous call into the
external automation library (puppeteer), the audit engine (lighthouse) and
the JS runtime builtins is modelled by an oracle supplied in a `World`
record, returning `Except JsError` results.
-/

set_option autoImplicit false

namespace McpPerf

/-! ## JavaScript error and value model -/

/-- The kinds of JS exceptions the embedded code distinguishes:
ordinary `Error` objects, `TypeError` (thrown by `path.join` on a
non-string argument) and puppeteer `TimeoutError`. -/
inductive JsErrorKind where
  | plain
  | typeErr
  | timeoutErr
  deriving DecidableEq, Repr

/-- A thrown JS exception: its kind and its `.message` text. -/
structure JsError where
  kind : JsErrorKind
  message : String
  deriving DecidableEq, Repr

/-- JS values returned from in-page evaluation; `undef` models the JS
`undefined` value. -/
inductive JsValue where
  | undef
  | jsNull
  | bool (b : Bool)
  | num (n : Int)
  | str (s : String)
  deriving DecidableEq, Repr

/-- Model of `JSON.stringify(v, null, 2)` on the scalar values above:
`undefined` serializes to JS `undefined` (no string at all), modelled as
`none`; other scalars serialize to their JSON text (indentation does not
affect scalars).  String escaping is abstracted to plain quoting. -/
def jsonStringify : JsValue → Option String
  | .undef => none
  | .jsNull => some "null"
  | .bool true => some "true"
  | .bool false => some "false"
  | .num n => some (toString n)
  | .str s => some ("\x22" ++ s ++ "\x22")

/-! ## Environment and executable resolution (`getChromeExecutablePath`) -/

/-- The parts of `process.env` and `process.platform` read by
`getChromeExecutablePath`.  `none` models an unset environment variable
(JS `undefined`). -/
structure Env where
  puppeteerExecutablePath : Option String
  programFiles : Option String
  programFilesX86 : Option String
  localAppData : Option String
  platform : String
  deriving DecidableEq, Repr

/-- JS truthiness of an environment variable: unset (`undefined`) and the
empty string are falsy. -/
def envTruthy : Option String → Bool
  | none => false
  | some s => !(s == "")

/-- The `TypeError` message Node's `path.join` raises when handed
`undefined`. -/
def pathJoinTypeErrorMsg : String :=
  "The \x22path\x22 argument must be of type string. Received undefined"

/-- Model of `path.join(base, ...rest)` as used in the win32 branch: if the
base (an environment variable) is `undefined`, Node throws a `TypeError`;
otherwise the segments are joined with the win32 separator. -/
def pathJoin (base : Option String) (rest : List String) : Except JsError String :=
  match base with
  | none => .error ⟨.typeErr, pathJoinTypeErrorMsg⟩
  | some b => .ok (String.intercalate "\x5c" (b :: rest))

/-- The win32 candidate array of `getChromeExecutablePath`.  In JS the
array literal evaluates its five `path.join` calls eagerly, in order, so
the first `undefined` environment variable among them raises before any
existence check. -/
def win32Candidates (pf pfx86 lad : Option String) : Except JsError (List String) :=
  match pathJoin pf ["Google", "Chrome", "Application", "chrome.exe"] with
  | .error e => .error e
  | .ok a =>
    match pathJoin pfx86 ["Google", "Chrome", "Application", "chrome.exe"] with
    | .error e => .error e
    | .ok b =>
      match pathJoin lad ["Google", "Chrome", "Application", "chrome.exe"] with
      | .error e => .error e
      | .ok c =>
        match pathJoin pf ["Microsoft", "Edge", "Application", "msedge.exe"] with
        | .error e => .error e
        | .ok d =>
          match pathJoin pfx86 ["Microsoft", "Edge", "Application", "msedge.exe"] with
          | .error e => .error e
          | .ok e2 => .ok [a, b, c, d, e2]

/-- The darwin candidate list (string literals in the source). -/
def macPaths : List String :=
  ["/Applications/Google Chrome.app/Contents/MacOS/Google Chrome",
   "/Applications/Microsoft Edge.app/Contents/MacOS/Microsoft Edge"]

/-- The linux candidate list (string literals in the source). -/
def linuxPaths : List String :=
  ["/usr/bin/google-chrome",
   "/usr/bin/google-chrome-stable",
   "/usr/bin/chromium",
   "/usr/bin/chromium-browser",
   "/snap/bin/chromium",
   "/opt/google/chrome/chrome"]

/-- The `windowsPaths.find(p => fs.existsSync(p))` step followed by the
common `if (!executablePath) throw new Error("Chrome executable not
found.")` check at the end of `getChromeExecutablePath`. -/
def pickFound (fsExistsSync : String → Bool) (cands : List String) : Except JsError String :=
  match cands.find? fsExistsSync with
  | some p => .ok p
  | none => .error ⟨.plain, "Chrome executable not found."⟩

/-- Shallow embedding of `getChromeExecutablePath` (src/mcp/server.js
lines 19-62).  `fsExistsSync` is the filesystem oracle for
`fs.existsSync`.  The JS `switch` on `process.platform` with a throwing
`default` is rendered as an if-chain; the common not-found throw after the
switch lives in `pickFound`. -/
def getChromeExecutablePath (env : Env) (fsExistsSync : String → Bool) :
    Except JsError String :=
  if envTruthy env.puppeteerExecutablePath then
    .ok (env.puppeteerExecutablePath.getD "")
  else if env.platform == "win32" then
    match win32Candidates env.programFiles env.programFilesX86 env.localAppData with
    | .error e => .error e
    | .ok cands => pickFound fsExistsSync cands
  else if env.platform == "darwin" then
    pickFound fsExistsSync macPaths
  else if env.platform == "linux" then
    pickFound fsExistsSync linuxPaths
  else
    .error ⟨.plain, "Unsupported platform: " ++ env.platform⟩

/-! ## Substring predicate used to formalise "the message names X" -/

/-- `listIsPre n h`: the char list `n` is a prefix of `h`. -/
def listIsPre : List Char → List Char → Bool
  | [], _ => true
  | _ :: _, [] => false
  | a :: as, b :: bs => a == b && listIsPre as bs

/-- `listHasSub n h`: the char list `n` occurs contiguously in `h`. -/
def listHasSub (n : List Char) : List Char → Bool
  | [] => listIsPre n []
  | b :: bs => listIsPre n (b :: bs) || listHasSub n bs

/-- `strMentions needle hay`: `needle` occurs as a substring of `hay`.
Used to formalise spec phrases such as "names the platform" and
"suggests the override". -/
def strMentions (needle hay : String) : Bool :=
  listHasSub needle.toList hay.toList

/-! ## Session-manager state (`globalBrowser`, `globalPage`) -/

/-- A puppeteer page handle: its identity, whether `isClosed()` reports
true, its current `url()`, and the user agent applied to it. -/
structure Page where
  pid : Nat
  closed : Bool
  url : String
  userAgent : String
  deriving DecidableEq, Repr

/-- A puppeteer browser handle: its identity, what `isConnected()`
reports, and its `wsEndpoint()` string. -/
structure Browser where
  bid : Nat
  connected : Bool
  wsEndpoint : String
  deriving DecidableEq, Repr

/-- The module-level mutable state of server.js (`globalBrowser`,
`globalPage`), instrumented with the number of successful
`puppeteer.launch` calls performed and the number of `process.on("exit")
hooks registered so far. -/
structure SMState where
  globalBrowser : Option Browser
  globalPage : Option Page
  launchCount : Nat
  exitHooks : Nat
  deriving DecidableEq, Repr

/-- The outcome of one successful `puppeteer.launch(...)` sequence: the
new browser handle, what `browser.pages()` then returns, and the page
`browser.newPage()` would create if the pages list is empty. -/
structure LaunchSpec where
  browser : Browser
  pages : List Page
  fresh : Page
  deriving DecidableEq, Repr

/-- Options record passed to the lighthouse audit engine. -/
structure LhOptions where
  logLevel : String
  output : String
  onlyCategories : List String
  port : Nat
  deriving DecidableEq, Repr

/-- One entry of `report.categories`: its object key, `title` and
`score` (a number in [0,1] or null, modelled as `Option Rat`). -/
structure LhCategory where
  key : String
  title : String
  score : Option Rat
  deriving DecidableEq, Repr

/-- The parsed lighthouse report, reduced to the `categories` object read
by the handler (JS object key order modelled by list order). -/
structure LhReport where
  categories : List LhCategory
  deriving DecidableEq, Repr

/-- Observable calls a tool handler makes into the external automation
library / audit engine, recorded as a trace. -/
inductive LibCall where
  | goto (url : String) (waitUntil : String) (timeoutMs : Nat)
  | waitForSelector (selector : String) (timeoutMs : Nat)
  | click (selector : String)
  | typeInto (selector : String) (value : String)
  | evalInPage (script : String)
  | snapshot
  | screenshot (fullPage : Bool)
  | waitForFn (timeoutMs : Nat) (mark : String)
  | getEntries
  | lighthouseRun (url : String) (opts : LhOptions)
  | jsonParseCall (s : String)
  deriving DecidableEq, Repr

/-- Oracle for the asynchronous page operations a handler may await; each
field gives the settled outcome of the corresponding library call. -/
structure PageOps where
  gotoRes : String → String → Nat → Except JsError Unit
  waitForSelectorRes : String → Nat → Except JsError Unit
  clickRes : String → Except JsError Unit
  typeRes : String → String → Except JsError Unit
  evalScript : String → Except JsError JsValue
  snapshotRes : Except JsError JsValue
  screenshotRes : Bool → Except JsError String
  waitForFunctionRes : Nat → String → Except JsError Unit
  getEntriesRes : Except JsError String

/-- The external world a session-manager call runs against: the process
environment, the filesystem, the outcome of the k-th `puppeteer.launch`,
what `browser.pages()`/`newPage()` return when `getPage` has to
re-resolve a closed page, the page-operation oracle, `Number(new
URL(endpoint).port)`, the audit engine, and `JSON.parse`. -/
structure World where
  env : Env
  fsExistsSync : String → Bool
  launch : Nat → Except JsError LaunchSpec
  pagesNow : List Page
  newPageNow : Page
  ops : PageOps
  parsePort : String → Except JsError Nat
  lighthouseRes : String → LhOptions → Except JsError String
  jsonParse : String → Except JsError LhReport

/-- The user agent string `getBrowser` applies to the initial page. -/
def defaultUserAgent : String :=
  "Mozilla/5.0 (Windows NT 10.0; Win64; x64) AppleWebKit/537.36 " ++
  "(KHTML, like Gecko) Chrome/120.0.0.0 Safari/537.36"

/-- `pages.length > 0 ? pages[0] : await browser.newPage()`. -/
def firstOrFresh (pages : List Page) (fresh : Page) : Page :=
  match pages with
  | [] => fresh
  | p :: _ => p

/-- The launch path of `getBrowser` (src/mcp/server.js lines 75-95),
entered once `globalBrowser` is null: resolve the executable path, launch,
set `globalPage` to the first existing page (or a new one), apply the
default user agent, and register one more `process.on("exit")` hook. -/
def launchFresh (w : World) (s : SMState) : Except JsError Browser × SMState :=
  match getChromeExecutablePath w.env w.fsExistsSync with
  | .error e => (.error e, s)
  | .ok _path =>
    match w.launch s.launchCount with
    | .error e => (.error e, s)
    | .ok spec =>
      let page0 := firstOrFresh spec.pages spec.fresh
      let page1 := { page0 with userAgent := defaultUserAgent }
      (.ok spec.browser,
        { globalBrowser := some spec.browser
          globalPage := some page1
          launchCount := s.launchCount + 1
          exitHooks := s.exitHooks + 1 })

/-- Shallow embedding of `getBrowser` (src/mcp/server.js lines 65-96): if
a browser exists and `isConnected()`, return it unchanged; if it exists
but is disconnected, null both `globalBrowser` and `globalPage` and fall
through to a fresh launch; if none exists, launch. -/
def getBrowser (w : World) (s : SMState) : Except JsError Browser × SMState :=
  match s.globalBrowser with
  | some b =>
    if b.connected then (.ok b, s)
    else launchFresh w { s with globalBrowser := none, globalPage := none }
  | none => launchFresh w s

/-- Shallow embedding of `getPage` (src/mcp/server.js lines 99-106):
ensure the browser, then if `globalPage` is null or closed re-resolve it
from `browser.pages()` (or `newPage()`). -/
def getPage (w : World) (s : SMState) : Except JsError Page × SMState :=
  match getBrowser w s with
  | (.error e, s1) => (.error e, s1)
  | (.ok _b, s1) =>
    match s1.globalPage with
    | some p =>
      if p.closed then
        let p1 := firstOrFresh w.pagesNow w.newPageNow
        (.ok p1, { s1 with globalPage := some p1 })
      else (.ok p, s1)
    | none =>
      let p1 := firstOrFresh w.pagesNow w.newPageNow
      (.ok p1, { s1 with globalPage := some p1 })

/-- `n` successive `getBrowser` calls, keeping only the state. -/
def iterGetBrowser (w : World) : Nat → SMState → SMState
  | 0, s => s
  | n + 1, s => iterGetBrowser w n (getBrowser w s).2

/-- An external disconnection event: the stored browser handle starts
reporting `isConnected() === false` (the state fields themselves are
untouched, as in JS). -/
def markDisconnected (s : SMState) : SMState :=
  { s with globalBrowser := s.globalBrowser.map (fun b => { b with connected := false }) }

/-- How many times `browser.close()` is attempted when the process exits:
every registered hook runs `if (globalBrowser) await globalBrowser.close()`,
so the current browser (if any) is closed once per registered hook. -/
def exitCloseAttempts (s : SMState) : Nat :=
  if s.globalBrowser.isSome then s.exitHooks else 0

/-! ## Tool handlers -/

/-- One item of a tool result's `content` array.  A text item's `text`
field is `Option String` because JS lets it be `undefined` (as happens
when `JSON.stringify` returns `undefined`); an image item carries base64
data and a MIME type. -/
inductive ToolContent where
  | text (t : Option String)
  | image (data : String) (mimeType : String)
  deriving DecidableEq, Repr

/-- The success payload a handler returns. -/
structure ToolResult where
  content : List ToolContent
  deriving DecidableEq, Repr

/-- A handler body's outcome: the trace of library calls it made, and its
result or thrown error. -/
abbrev BodyResult (α : Type) := List LibCall × Except JsError α

/-- Body of the `navigate` handler (lines 124-128) after `getPage`:
`page.goto(url, waitUntil: domcontentloaded, timeout: 30000)` with NO
try/catch — a goto failure propagates unchanged. -/
def navigateBody (ops : PageOps) (url : String) : BodyResult ToolResult :=
  match ops.gotoRes url "domcontentloaded" 30000 with
  | .error e => ([.goto url "domcontentloaded" 30000], .error e)
  | .ok _ =>
    ([.goto url "domcontentloaded" 30000],
      .ok ⟨[.text (some ("Navigated to " ++ url))]⟩)

/-- Body of the `click` handler (lines 140-149) after `getPage`: waits up
to 5000 ms for the selector, then clicks; both steps sit in a try/catch
that re-throws `Failed to click <sel>: <original message>`. -/
def clickBody (ops : PageOps) (selector : String) : BodyResult ToolResult :=
  match ops.waitForSelectorRes selector 5000 with
  | .error e =>
    ([.waitForSelector selector 5000],
      .error ⟨.plain, "Failed to click \x27" ++ selector ++ "\x27: " ++ e.message⟩)
  | .ok _ =>
    match ops.clickRes selector with
    | .error e =>
      ([.waitForSelector selector 5000, .click selector],
        .error ⟨.plain, "Failed to click \x27" ++ selector ++ "\x27: " ++ e.message⟩)
    | .ok _ =>
      ([.waitForSelector selector 5000, .click selector],
        .ok ⟨[.text (some ("Clicked element: " ++ selector))]⟩)

/-- Body of the `fill` handler (lines 162-171) after `getPage`: waits up
to 5000 ms for the selector, then types; both steps sit in a try/catch
that re-throws `Failed to fill <sel>: <original message>`. -/
def fillBody (ops : PageOps) (selector value : String) : BodyResult ToolResult :=
  match ops.waitForSelectorRes selector 5000 with
  | .error e =>
    ([.waitForSelector selector 5000],
      .error ⟨.plain, "Failed to fill \x27" ++ selector ++ "\x27: " ++ e.message⟩)
  | .ok _ =>
    match ops.typeRes selector value with
    | .error e =>
      ([.waitForSelector selector 5000, .typeInto selector value],
        .error ⟨.plain, "Failed to fill \x27" ++ selector ++ "\x27: " ++ e.message⟩)
    | .ok _ =>
      ([.waitForSelector selector 5000, .typeInto selector value],
        .ok ⟨[.text (some ("Filled \x27" ++ selector ++ "\x27 with value."))]⟩)

/-- Body of the `evaluate` handler (lines 183-195) after `getPage`: the
script is run in-page wrapped as `new Function(code)` so `return` is
honoured (`ops.evalScript` is that whole evaluation); the result goes
through `JSON.stringify(result, null, 2)` into the `text` field, and a
failure is re-thrown as `Script execution failed: <original message>`. -/
def evaluateBody (ops : PageOps) (script : String) : BodyResult ToolResult :=
  match ops.evalScript script with
  | .error e =>
    ([.evalInPage script],
      .error ⟨.plain, "Script execution failed: " ++ e.message⟩)
  | .ok v => ([.evalInPage script], .ok ⟨[.text (jsonStringify v)]⟩)

/-- Body of the `inspect` handler (lines 205-209): accessibility snapshot,
JSON-stringified; NO try/catch. -/
def inspectBody (ops : PageOps) : BodyResult ToolResult :=
  match ops.snapshotRes with
  | .error e => ([.snapshot], .error e)
  | .ok v => ([.snapshot], .ok ⟨[.text (jsonStringify v)]⟩)

/-- Body of the `take-screenshot` handler (lines 223-229): base64
screenshot returned as an image payload; NO try/catch. -/
def screenshotBody (ops : PageOps) (fullPage : Bool) : BodyResult ToolResult :=
  match ops.screenshotRes fullPage with
  | .error e => ([.screenshot fullPage], .error e)
  | .ok b64 => ([.screenshot fullPage], .ok ⟨[.image b64 "image/png"]⟩)

/-- The `if (mark) await page.waitForFunction(..., timeout: 5000, mark)`
step of the `performance-entries` handler (line 249-251).  The JS
condition is truthiness of the string: an unset mark AND the empty string
both skip the poll; only a non-empty mark polls, with its failure
propagating unchanged. -/
def markWait (ops : PageOps) : Option String → List LibCall × Except JsError Unit
  | none => ([], .ok ())
  | some m =>
    if m == "" then ([], .ok ())
    else
      match ops.waitForFunctionRes 5000 m with
      | .error e => ([.waitForFn 5000 m], .error e)
      | .ok _ => ([.waitForFn 5000 m], .ok ())

/-- The final entry read of the `performance-entries` handler: the page
evaluates `JSON.stringify(performance.getEntries())`. -/
def perfRead (ops : PageOps) : BodyResult ToolResult :=
  match ops.getEntriesRes with
  | .error e => ([.getEntries], .error e)
  | .ok entries => ([.getEntries], .ok ⟨[.text (some entries)]⟩)

/-- The mark-wait and entry-read tail of the `performance-entries`
handler: the (truthiness-guarded) mark poll, then the entry read. -/
def perfTail (ops : PageOps) (mark : Option String) : BodyResult ToolResult :=
  let mw := markWait ops mark
  match mw.2 with
  | .error e => (mw.1, .error e)
  | .ok _ =>
    let r := perfRead ops
    (mw.1 ++ r.1, r.2)

/-- Body of the `performance-entries` handler (lines 243-255) after
`getPage`: if `url` is given, `page.goto(url, waitUntil: networkidle2,
timeout: 30000)` first (failure propagates unchanged); with no `url`, no
navigation at all; then the mark-wait and entry-read tail.  The JS
`if (url)` truthiness test coincides with presence here because the
schema validates `url` with a well-formed-URL check that rejects the
empty string, so a present `url` is always non-empty. -/
def performanceEntriesBody (ops : PageOps) (url mark : Option String) :
    BodyResult ToolResult :=
  match url with
  | some u =>
    match ops.gotoRes u "networkidle2" 30000 with
    | .error e => ([.goto u "networkidle2" 30000], .error e)
    | .ok _ =>
      let tail := perfTail ops mark
      (.goto u "networkidle2" 30000 :: tail.1, tail.2)
  | none => perfTail ops mark

/-- The `navigate` tool end to end: `getPage` (which may relaunch a
disconnected session) followed by the navigate body. -/
def navigateTool (w : World) (s : SMState) (url : String) :
    SMState × BodyResult ToolResult :=
  match getPage w s with
  | (.error e, s1) => (s1, ([], .error e))
  | (.ok _p, s1) => (s1, navigateBody w.ops url)

/-- Concrete JSON rendering of the final `JSON.stringify(scores, null, 2)`
payload of the lighthouse handler (whitespace and number formatting
abstracted; `none` renders as JSON null). -/
def encodeScores (scores : List (String × Option Rat)) : String :=
  "\x7b \x22scores\x22: \x7b " ++
    String.intercalate ", "
      (scores.map (fun kv =>
        "\x22" ++ kv.1 ++ "\x22: " ++
          (match kv.2 with
           | none => "null"
           | some q => toString q))) ++
  " \x7d \x7d"

/-- Shallow embedding of the `lighthouse-report` handler (lines 283-306):
`getBrowser`, `getPage`, target URL is the explicit argument else
`page.url()`, the port comes from `Number(new URL(browser.wsEndpoint()).port)`,
the audit engine runs with the five fixed categories, the report is
`JSON.parse`d, and each category's title/score is folded into a flat
`scores` object returned JSON-encoded.  NO try/catch anywhere: engine and
parse failures propagate unchanged. -/
def lighthouseTool (w : World) (s : SMState) (urlArg : Option String) :
    SMState × BodyResult ToolResult :=
  match getBrowser w s with
  | (.error e, s1) => (s1, ([], .error e))
  | (.ok b, s1) =>
    match getPage w s1 with
    | (.error e, s2) => (s2, ([], .error e))
    | (.ok p, s2) =>
      let targetUrl := match urlArg with | some u => u | none => p.url
      match w.parsePort b.wsEndpoint with
      | .error e => (s2, ([], .error e))
      | .ok port =>
        let opts : LhOptions :=
          { logLevel := "info"
            output := "json"
            onlyCategories :=
              ["performance", "accessibility", "best-practices", "seo", "pwa"]
            port := port }
        match w.lighthouseRes targetUrl opts with
        | .error e => (s2, ([.lighthouseRun targetUrl opts], .error e))
        | .ok reportStr =>
          match w.jsonParse reportStr with
          | .error e =>
            (s2, ([.lighthouseRun targetUrl opts, .jsonParseCall reportStr], .error e))
          | .ok report =>
            let scores := report.categories.map (fun c => (c.title, c.score))
            (s2, ([.lighthouseRun targetUrl opts, .jsonParseCall reportStr],
              .ok ⟨[.text (some (encodeScores scores))]⟩))

/-! ## Concrete fixtures used to instantiate the theorems -/

/-- A representative raw puppeteer failure (a TimeoutError). -/
def demoErr : JsError := ⟨.timeoutErr, "Navigation timeout of 30000 ms exceeded"⟩

/-- A connected browser handle. -/
def demoBrowser : Browser := ⟨1, true, "ws://127.0.0.1:9222/devtools/browser/demo"⟩

/-- An open page on the demo browser. -/
def demoPage : Page := ⟨1, false, "https://example.com/", defaultUserAgent⟩

/-- A live session state: one launch already performed, one exit hook. -/
def demoLive : SMState := ⟨some demoBrowser, some demoPage, 1, 1⟩

/-- A browser handle whose connection has dropped. -/
def staleBrowser : Browser := ⟨1, false, "ws://127.0.0.1:9222/devtools/browser/old"⟩

/-- A state holding a disconnected session. -/
def demoStale : SMState := ⟨some staleBrowser, some demoPage, 1, 1⟩

/-- The state before any launch. -/
def emptyState : SMState := ⟨none, none, 0, 0⟩

/-- Page-operation oracle on which every library call succeeds; in-page
evaluation yields 2 for the script "return 1+1" and JS undefined for any
other script (a body with no return statement). -/
def demoOps : PageOps :=
  { gotoRes := fun _ _ _ => .ok ()
    waitForSelectorRes := fun _ _ => .ok ()
    clickRes := fun _ => .ok ()
    typeRes := fun _ _ => .ok ()
    evalScript := fun s => if s == "return 1+1" then .ok (.num 2) else .ok .undef
    snapshotRes := .ok (.str "WebArea")
    screenshotRes := fun _ => .ok "iVBORw0KGgo="
    waitForFunctionRes := fun _ _ => .ok ()
    getEntriesRes := .ok "[]" }

/-- Page-operation oracle on which every library call fails with the raw
timeout error. -/
def failOps : PageOps :=
  { gotoRes := fun _ _ _ => .error demoErr
    waitForSelectorRes := fun _ _ => .error demoErr
    clickRes := fun _ => .error demoErr
    typeRes := fun _ _ => .error demoErr
    evalScript := fun _ => .error demoErr
    snapshotRes := .error demoErr
    screenshotRes := fun _ => .error demoErr
    waitForFunctionRes := fun _ _ => .error demoErr
    getEntriesRes := .error demoErr }

/-- An environment with the explicit override set. -/
def demoEnv : Env := ⟨some "/usr/bin/google-chrome", none, none, none, "linux"⟩

/-- The browser a fresh launch produces. -/
def launchedBrowser : Browser := ⟨2, true, "ws://127.0.0.1:9223/devtools/browser/fresh"⟩

/-- The initial page of a fresh launch. -/
def launchedPage : Page := ⟨2, false, "about:blank", ""⟩

/-- The outcome of a fresh launch: one browser with one open page. -/
def demoLaunch : LaunchSpec := ⟨launchedBrowser, [launchedPage], launchedPage⟩

/-- A parsed lighthouse report with two categories. -/
def demoReport : LhReport :=
  ⟨[⟨"performance", "Performance", some ((9 : Rat) / 10)⟩,
    ⟨"accessibility", "Accessibility", none⟩]⟩

/-- A world in which resolution, launches, page operations, and the audit
engine all succeed. -/
def demoWorld : World :=
  { env := demoEnv
    fsExistsSync := fun _ => false
    launch := fun _ => .ok demoLaunch
    pagesNow := [launchedPage]
    newPageNow := launchedPage
    ops := demoOps
    parsePort := fun _ => .ok 9222
    lighthouseRes := fun _ _ => .ok "demo-report"
    jsonParse := fun _ => .ok demoReport }

/-- The demo world with an audit engine that rejects. -/
def lhFailWorld : World :=
  { demoWorld with lighthouseRes := fun _ _ => .error ⟨.plain, "PROTOCOL_TIMEOUT"⟩ }

/-- The demo world with an audit engine whose report string is malformed:
`JSON.parse` rejects it. -/
def lhBadReportWorld : World :=
  { demoWorld with
    jsonParse := fun _ => .error ⟨.plain, "Unexpected token u in JSON at position 0"⟩ }

/-- The all-succeeding page oracle except that the mark poll always times
out. -/
def markFailOps : PageOps :=
  { demoOps with waitForFunctionRes := fun _ _ => .error demoErr }

/-- An environment with no override on an unrecognized platform. -/
def bsdEnv : Env := ⟨none, none, none, none, "freebsd"⟩

/-- A linux environment with no override. -/
def linuxEnv : Env := ⟨none, none, none, none, "linux"⟩

/-- A win32 environment with no override and `PROGRAMFILES` unset. -/
def win32MissingEnv : Env :=
  ⟨none, none, some "C:\x5cProgram Files (x86)", some "C:\x5cUsers\x5cme\x5cAppData\x5cLocal", "win32"⟩

/-! ## Helper lemmas -/

theorem listIsPre_refl : ∀ n : List Char, listIsPre n n = true
  | [] => rfl
  | a :: as => by simp [listIsPre, listIsPre_refl as]

theorem listHasSub_self (n : List Char) : listHasSub n n = true := by
  cases n with
  | nil => rfl
  | cons b bs => simp [listHasSub, listIsPre_refl]

theorem listHasSub_append_right (xs n : List Char) : listHasSub n (xs ++ n) = true := by
  induction xs with
  | nil => simpa using listHasSub_self n
  | cons b bs ih => simp [listHasSub, ih]

/-- A string occurs as a substring of anything it suffixes: the wrapped
error messages do preserve the original message. -/
theorem strMentions_append_right (p m : String) : strMentions m (p ++ m) = true := by
  unfold strMentions
  have h : (p ++ m).toList = p.toList ++ m.toList := by
    simp [String.toList, String.data_append]
  rw [h]
  exact listHasSub_append_right _ _

/-- Prepending a nonempty string changes a string: a wrapped error message
is never the raw message. -/
theorem append_left_ne (p m : String) (hp : 0 < p.length) : p ++ m ≠ m := by
  intro h
  have hl := congrArg String.length h
  rw [String.length_append] at hl
  omega

/-- Decomposition of a successful `List.find?`: the hit satisfies the
predicate and everything before it fails the predicate (this is the
"first candidate that exists on disk" shape). -/
theorem find?_eq_some_decomp {α : Type} (p : α → Bool) :
    ∀ (l : List α) (a : α), l.find? p = some a →
      p a = true ∧ ∃ l1 l2, l = l1 ++ a :: l2 ∧ ∀ x ∈ l1, p x = false := by
  intro l
  induction l with
  | nil => intro a h; simp [List.find?] at h
  | cons x xs ih =>
    intro a h
    cases hpx : p x with
    | true =>
      rw [List.find?_cons_of_pos _ hpx] at h
      cases h
      exact ⟨hpx, [], xs, rfl, by simp⟩
    | false =>
      rw [List.find?_cons_of_neg _ (by simp [hpx])] at h
      rcases ih a h with ⟨hpa, l1, l2, hsplit, hall⟩
      refine ⟨hpa, x :: l1, l2, by rw [hsplit]; rfl, ?_⟩
      intro y hy
      rcases List.mem_cons.mp hy with hyx | hyl
      · rw [hyx]; exact hpx
      · exact hall y hyl

/-- `launchFresh` registers exactly one exit hook per successful launch
and performs at most one launch. -/
theorem launchFresh_hooks (w : World) (s : SMState) :
    (launchFresh w s).2.exitHooks + s.launchCount
        = s.exitHooks + (launchFresh w s).2.launchCount ∧
    s.launchCount ≤ (launchFresh w s).2.launchCount ∧
    (launchFresh w s).2.launchCount ≤ s.launchCount + 1 := by
  unfold launchFresh
  cases hres : getChromeExecutablePath w.env w.fsExistsSync with
  | error e => simp
  | ok p =>
    cases hl : w.launch s.launchCount with
    | error e => simp
    | ok spec => simp; omega

theorem perfRead_trace (ops : PageOps) : (perfRead ops).1 = [.getEntries] := by
  unfold perfRead
  rcases hge : ops.getEntriesRes with e | s <;> simp

theorem markWait_trace (ops : PageOps) (m : Option String) :
    (markWait ops m).1 = [] ∨ ∃ x, (markWait ops m).1 = [.waitForFn 5000 x] := by
  rcases m with _ | m
  · exact Or.inl rfl
  · unfold markWait
    by_cases hm : (m == "") = true
    · simp [hm]
    · rcases h5 : ops.waitForFunctionRes 5000 m with e | v <;> simp [hm, h5]

/-- Whatever the mark and the oracle outcomes, the tail of
`performance-entries` never navigates. -/
theorem perfTail_no_goto (ops : PageOps) (m : Option String) :
    ∀ c ∈ (perfTail ops m).1, ∀ url wu t, c ≠ LibCall.goto url wu t := by
  intro c hc url wu t
  have hmem : c ∈ (markWait ops m).1 ∨ c ∈ (perfRead ops).1 := by
    rcases hmw : (markWait ops m).2 with e | v
    · simp only [perfTail, hmw] at hc
      exact Or.inl hc
    · simp only [perfTail, hmw] at hc
      exact List.mem_append.mp hc
  rcases hmem with h | h
  · rcases markWait_trace ops m with h0 | ⟨x, hx⟩
    · rw [h0] at h; cases h
    · rw [hx] at h
      simp at h
      simp [h]
  · rw [perfRead_trace] at h
    simp at h
    simp [h]

/-! ## Claim theorems -/

/-- C1: while the stored session reports a live connection, `getBrowser`
returns that same session with the state (in particular the active-page
reference) unchanged; iterating it any number of times leaves the state
fixed, so the launch count stays at 1 across N successive calls. -/
theorem c1_getBrowser_idempotent_while_connected
    (w : World) (s : SMState) (b : Browser)
    (hb : s.globalBrowser = some b) (hc : b.connected = true) :
    getBrowser w s = (.ok b, s) ∧
    (∀ n, iterGetBrowser w n s = s) ∧
    (s.launchCount = 1 → ∀ n, (iterGetBrowser w n s).launchCount = 1) := by
  have h1 : getBrowser w s = (.ok b, s) := by
    simp [getBrowser, hb, hc]
  have h2 : ∀ n, iterGetBrowser w n s = s := by
    intro n
    induction n with
    | zero => rfl
    | succ k ih => simp [iterGetBrowser, h1, ih]
  exact ⟨h1, h2, fun hlc n => by rw [h2 n]; exact hlc⟩

/-- Witness for C1: on a concrete live session, five successive
`getBrowser` calls leave the state untouched and the launch count at 1. -/
theorem c1_witness :
    getBrowser demoWorld demoLive = (.ok demoBrowser, demoLive) ∧
    (iterGetBrowser demoWorld 5 demoLive).launchCount = 1 ∧
    (iterGetBrowser demoWorld 5 demoLive).globalPage = some demoPage := by
  have h := c1_getBrowser_idempotent_while_connected demoWorld demoLive demoBrowser rfl rfl
  exact ⟨h.1, h.2.2 rfl 5, by rw [h.2.1 5]; rfl⟩

/-- C2: when `getBrowser` finds a disconnected session it nulls both the
session handle and the active-page reference before any launch (it equals
`launchFresh` on the cleared state); when resolution and launch succeed,
the state shows exactly one more launch, `getPage` hands the primitive the
freshly picked page, and the primitive (here `navigate`) proceeds with its
body against that relaunched state. -/
theorem c2_disconnected_session_single_relaunch
    (w : World) (s : SMState) (b : Browser) (spec : LaunchSpec) (xp : String)
    (hb : s.globalBrowser = some b) (hc : b.connected = false)
    (hres : getChromeExecutablePath w.env w.fsExistsSync = .ok xp)
    (hl : w.launch s.launchCount = .ok spec)
    (hopen : (firstOrFresh spec.pages spec.fresh).closed = false) :
    getBrowser w s = launchFresh w { s with globalBrowser := none, globalPage := none } ∧
    getBrowser w s =
      (.ok spec.browser,
        { globalBrowser := some spec.browser
          globalPage := some { firstOrFresh spec.pages spec.fresh with userAgent := defaultUserAgent }
          launchCount := s.launchCount + 1
          exitHooks := s.exitHooks + 1 }) ∧
    getPage w s =
      (.ok { firstOrFresh spec.pages spec.fresh with userAgent := defaultUserAgent },
        { globalBrowser := some spec.browser
          globalPage := some { firstOrFresh spec.pages spec.fresh with userAgent := defaultUserAgent }
          launchCount := s.launchCount + 1
          exitHooks := s.exitHooks + 1 }) ∧
    (∀ url, navigateTool w s url =
      ({ globalBrowser := some spec.browser
         globalPage := some { firstOrFresh spec.pages spec.fresh with userAgent := defaultUserAgent }
         launchCount := s.launchCount + 1
         exitHooks := s.exitHooks + 1 }, navigateBody w.ops url)) := by
  have h1 : getBrowser w s = launchFresh w { s with globalBrowser := none, globalPage := none } := by
    simp [getBrowser, hb, hc]
  have h2 : getBrowser w s =
      (.ok spec.browser,
        { globalBrowser := some spec.browser
          globalPage := some { firstOrFresh spec.pages spec.fresh with userAgent := defaultUserAgent }
          launchCount := s.launchCount + 1
          exitHooks := s.exitHooks + 1 }) := by
    rw [h1]
    simp [launchFresh, hres, hl]
  have h3 : getPage w s =
      (.ok { firstOrFresh spec.pages spec.fresh with userAgent := defaultUserAgent },
        { globalBrowser := some spec.browser
          globalPage := some { firstOrFresh spec.pages spec.fresh with userAgent := defaultUserAgent }
          launchCount := s.launchCount + 1
          exitHooks := s.exitHooks + 1 }) := by
    simp [getPage, h2, hopen]
  exact ⟨h1, h2, h3, fun url => by simp [navigateTool, h3]⟩

/-- Witness for C2: a concrete disconnected session relaunches exactly
once (launch count 1 → 2, one more exit hook) and `getPage` returns the
fresh page with the default user agent applied. -/
theorem c2_witness :
    getPage demoWorld demoStale =
      (.ok { launchedPage with userAgent := defaultUserAgent },
        { globalBrowser := some launchedBrowser
          globalPage := some { launchedPage with userAgent := defaultUserAgent }
          launchCount := 2
          exitHooks := 2 }) := by
  have h := c2_disconnected_session_single_relaunch demoWorld demoStale staleBrowser
    demoLaunch "/usr/bin/google-chrome" rfl rfl rfl rfl rfl
  simpa [demoStale, demoLaunch, firstOrFresh] using h.2.2.1

/-- C8 (amended): one `process.on("exit")` hook is registered per
successful launch — never more than one per `getBrowser` call, none when
the stored session is reused — so the number of registered hooks moves in
lockstep with the launch count rather than being one for the whole
process lifetime. -/
theorem c8_one_exit_hook_per_launch (w : World) (s : SMState) :
    (getBrowser w s).2.exitHooks + s.launchCount
        = s.exitHooks + (getBrowser w s).2.launchCount ∧
    s.launchCount ≤ (getBrowser w s).2.launchCount ∧
    (getBrowser w s).2.launchCount ≤ s.launchCount + 1 := by
  unfold getBrowser
  cases hgb : s.globalBrowser with
  | none => simpa using launchFresh_hooks w s
  | some b =>
    by_cases hc : b.connected = true
    · simp [hc]
    · have h := launchFresh_hooks w { s with globalBrowser := none, globalPage := none }
      simpa [hc] using h

/-- Counterexample for C8: after a launch, a disconnection and a
relaunch, two exit hooks are registered (not one), and at process exit
the close of the single current session is attempted twice. -/
theorem c8_counterexample :
    ((getBrowser demoWorld (markDisconnected (getBrowser demoWorld emptyState).2)).2).exitHooks = 2 ∧
    ((getBrowser demoWorld (markDisconnected (getBrowser demoWorld emptyState).2)).2).exitHooks ≠ 1 ∧
    exitCloseAttempts ((getBrowser demoWorld (markDisconnected (getBrowser demoWorld emptyState).2)).2) = 2 := by
  refine ⟨rfl, by decide, rfl⟩

/-- C3 (amended): only `click`, `fill` and `evaluate` catch library-level
failures; they re-throw a new wrapping error (never the raw exception)
whose message embeds the original message. `navigate`, `inspect`,
`take-screenshot` and `performance-entries` propagate the underlying
library error completely unchanged. -/
theorem c3_wrapping_only_in_click_fill_evaluate
    (ops : PageOps) (sel val url script : String) (fp : Bool) (e : JsError) :
    (ops.waitForSelectorRes sel 5000 = .error e →
      (clickBody ops sel).2 =
        .error ⟨.plain, "Failed to click \x27" ++ sel ++ "\x27: " ++ e.message⟩ ∧
      "Failed to click \x27" ++ sel ++ "\x27: " ++ e.message ≠ e.message ∧
      strMentions e.message ("Failed to click \x27" ++ sel ++ "\x27: " ++ e.message) = true) ∧
    (ops.waitForSelectorRes sel 5000 = .error e →
      (fillBody ops sel val).2 =
        .error ⟨.plain, "Failed to fill \x27" ++ sel ++ "\x27: " ++ e.message⟩) ∧
    (ops.evalScript script = .error e →
      (evaluateBody ops script).2 =
        .error ⟨.plain, "Script execution failed: " ++ e.message⟩) ∧
    (ops.gotoRes url "domcontentloaded" 30000 = .error e →
      (navigateBody ops url).2 = .error e) ∧
    (ops.snapshotRes = .error e → (inspectBody ops).2 = .error e) ∧
    (ops.screenshotRes fp = .error e → (screenshotBody ops fp).2 = .error e) ∧
    (ops.gotoRes url "networkidle2" 30000 = .error e →
      (performanceEntriesBody ops (some url) none).2 = .error e) := by
  have hne : ∀ p m : String, 0 < p.length → p ++ m ≠ m := append_left_ne
  refine ⟨?_, ?_, ?_, ?_, ?_, ?_, ?_⟩
  · intro h
    refine ⟨by simp [clickBody, h], ?_, strMentions_append_right _ _⟩
    apply hne
    rw [String.length_append, String.length_append]
    have h17 : ("Failed to click \x27" : String).length = 17 := rfl
    omega
  · intro h
    simp [fillBody, h]
  · intro h
    simp [evaluateBody, h]
  · intro h
    simp [navigateBody, h]
  · intro h
    simp [inspectBody, h]
  · intro h
    simp [screenshotBody, h]
  · intro h
    simp [performanceEntriesBody, h]

/-- Witness for C3 (amended): with the concrete always-failing oracle,
`click` surfaces the wrapped message while `navigate` surfaces the raw
library timeout error unchanged. -/
theorem c3_witness :
    (clickBody failOps "#btn").2 =
      .error ⟨.plain, "Failed to click \x27#btn\x27: " ++ demoErr.message⟩ ∧
    (navigateBody failOps "https://example.com/").2 = .error demoErr := by
  have h := c3_wrapping_only_in_click_fill_evaluate failOps "#btn" "v"
    "https://example.com/" "x" false demoErr
  exact ⟨(h.1 rfl).1, h.2.2.2.1 rfl⟩

/-- Counterexample for C3 as stated: `navigate` does not catch the
library failure at all — the raw puppeteer TimeoutError (kind and message
untouched) surfaces directly from the primitive. -/
theorem c3_counterexample :
    (navigateBody failOps "https://example.com/").2 = .error demoErr ∧
    demoErr.kind = JsErrorKind.timeoutErr := by
  exact ⟨rfl, rfl⟩

/-- C4 (amended): a truthy override is returned unconditionally for every
filesystem (no existence check); with no override, an unrecognized
platform fails with an error that names the platform (but does not
suggest the override); on linux with no existing candidate it fails with
the fixed message "Chrome executable not found." (which names neither);
and a successful linux resolution is exactly the first candidate of the
ordered list that exists on disk, never an empty path. -/
theorem c4_executable_resolution
    (env : Env) (fsE : String → Bool) :
    (∀ v, env.puppeteerExecutablePath = some v → envTruthy env.puppeteerExecutablePath = true →
      getChromeExecutablePath env fsE = .ok v) ∧
    (envTruthy env.puppeteerExecutablePath = false →
      env.platform ≠ "win32" → env.platform ≠ "darwin" → env.platform ≠ "linux" →
      getChromeExecutablePath env fsE =
        .error ⟨.plain, "Unsupported platform: " ++ env.platform⟩ ∧
      strMentions env.platform ("Unsupported platform: " ++ env.platform) = true) ∧
    (envTruthy env.puppeteerExecutablePath = false → env.platform = "linux" →
      linuxPaths.find? fsE = none →
      getChromeExecutablePath env fsE = .error ⟨.plain, "Chrome executable not found."⟩) ∧
    (envTruthy env.puppeteerExecutablePath = false → env.platform = "linux" →
      ∀ p, getChromeExecutablePath env fsE = .ok p →
        fsE p = true ∧ p ≠ "" ∧
        ∃ pre post, linuxPaths = pre ++ p :: post ∧ ∀ q ∈ pre, fsE q = false) := by
  refine ⟨?_, ?_, ?_, ?_⟩
  · intro v hv ht
    rw [getChromeExecutablePath, if_pos ht]
    simp [hv]
  · intro ht h1 h2 h3
    refine ⟨?_, strMentions_append_right _ _⟩
    simp [getChromeExecutablePath, ht, h1, h2, h3]
  · intro ht hp hf
    simp [getChromeExecutablePath, ht, hp, pickFound, hf]
  · intro ht hp p hok
    rw [getChromeExecutablePath] at hok
    simp [ht, hp, pickFound] at hok
    cases hf : linuxPaths.find? fsE with
    | none => rw [hf] at hok; cases hok
    | some q =>
      rw [hf] at hok
      cases hok
      rcases find?_eq_some_decomp fsE linuxPaths p hf with ⟨hq, pre, post, hsplit, hall⟩
      refine ⟨hq, ?_, pre, post, hsplit, hall⟩
      have hmem : p ∈ linuxPaths := by rw [hsplit]; simp
      intro hq0
      rw [hq0] at hmem
      revert hmem
      decide

/-- Witness for C4 (amended): the override wins with no existence check;
platform "freebsd" yields the platform-naming error; a linux box where
only the second candidate exists resolves to exactly that candidate. -/
theorem c4_witness :
    getChromeExecutablePath
        ⟨some "/opt/chrome/chrome", none, none, none, "linux"⟩ (fun _ => false) =
      .ok "/opt/chrome/chrome" ∧
    getChromeExecutablePath bsdEnv (fun _ => true) =
      .error ⟨.plain, "Unsupported platform: freebsd"⟩ ∧
    getChromeExecutablePath linuxEnv (fun p => p == "/usr/bin/google-chrome-stable") =
      .ok "/usr/bin/google-chrome-stable" := by
  refine ⟨?_, ?_, ?_⟩
  · exact (c4_executable_resolution _ _).1 "/opt/chrome/chrome" rfl rfl
  · exact ((c4_executable_resolution bsdEnv _).2.1 rfl (by decide) (by decide) (by decide)).1
  · rfl

/-- Counterexample for C4 as stated: on linux with no override and no
candidate on disk, the error message is the fixed string "Chrome
executable not found." — it neither names the platform nor suggests the
`PUPPETEER_EXECUTABLE_PATH` override. -/
theorem c4_counterexample :
    getChromeExecutablePath linuxEnv (fun _ => false) =
      .error ⟨.plain, "Chrome executable not found."⟩ ∧
    strMentions "PUPPETEER_EXECUTABLE_PATH" "Chrome executable not found." = false ∧
    strMentions "linux" "Chrome executable not found." = false := by
  refine ⟨rfl, by decide, by decide⟩

/-- C9: on win32 with no override, if any of PROGRAMFILES,
PROGRAMFILES(X86) or LOCALAPPDATA is unset, `getChromeExecutablePath`
throws the `path.join` TypeError — independent of the filesystem, hence
before any existence check, and never the NotFound failure. -/
theorem c9_win32_missing_env_typeerror (env : Env)
    (hp : env.platform = "win32")
    (hov : envTruthy env.puppeteerExecutablePath = false)
    (hmiss : env.programFiles = none ∨ env.programFilesX86 = none ∨
      env.localAppData = none) :
    ∀ fsE, getChromeExecutablePath env fsE =
      .error ⟨.typeErr, pathJoinTypeErrorMsg⟩ := by
  intro fsE
  rcases hmiss with hm | hm | hm
  · simp [getChromeExecutablePath, hov, hp, win32Candidates, pathJoin, hm]
  · cases hpf : env.programFiles with
    | none => simp [getChromeExecutablePath, hov, hp, win32Candidates, pathJoin, hpf]
    | some x => simp [getChromeExecutablePath, hov, hp, win32Candidates, pathJoin, hpf, hm]
  · cases hpf : env.programFiles with
    | none => simp [getChromeExecutablePath, hov, hp, win32Candidates, pathJoin, hpf]
    | some x =>
      cases hpx : env.programFilesX86 with
      | none => simp [getChromeExecutablePath, hov, hp, win32Candidates, pathJoin, hpf, hpx]
      | some y => simp [getChromeExecutablePath, hov, hp, win32Candidates, pathJoin, hpf, hpx, hm]

/-- Witness for C9: a concrete win32 environment with PROGRAMFILES unset
throws the TypeError even when every path exists on disk. -/
theorem c9_witness :
    getChromeExecutablePath win32MissingEnv (fun _ => true) =
      .error ⟨.typeErr, pathJoinTypeErrorMsg⟩ :=
  c9_win32_missing_env_typeerror win32MissingEnv rfl rfl (Or.inl rfl) (fun _ => true)

/-- C5 (amended): with a `url` the handler navigates first — the trace
starts with a goto using the network-idle heuristic under the 30 s bound,
and a goto failure surfaces before anything else; with no `url` no goto
ever happens (no implicit reload); with a NON-EMPTY `mark` it polls
`waitForFunction` under the 5 s bound and a timeout there surfaces as the
call's failure; an empty mark is falsy in JS, so the poll is skipped and
the call behaves exactly as if no mark were given; on success the
page-computed JSON of all performance entries is the returned text. -/
theorem c5_performance_entries_conditional_navigation
    (ops : PageOps) (u mk : String) :
    (∀ m, ((performanceEntriesBody ops (some u) m).1).head? =
      some (.goto u "networkidle2" 30000)) ∧
    (∀ e, ops.gotoRes u "networkidle2" 30000 = .error e →
      performanceEntriesBody ops (some u) none =
        ([.goto u "networkidle2" 30000], .error e)) ∧
    (∀ m c, c ∈ (performanceEntriesBody ops none m).1 →
      ∀ url wu t, c ≠ .goto url wu t) ∧
    (mk ≠ "" → ∀ e, ops.waitForFunctionRes 5000 mk = .error e →
      performanceEntriesBody ops none (some mk) =
        ([.waitForFn 5000 mk], .error e)) ∧
    (performanceEntriesBody ops none (some "") =
      performanceEntriesBody ops none none) ∧
    (∀ s, ops.getEntriesRes = .ok s →
      performanceEntriesBody ops none none =
        ([.getEntries], .ok ⟨[.text (some s)]⟩)) := by
  refine ⟨?_, ?_, ?_, ?_, ?_, ?_⟩
  · intro m
    cases hg : ops.gotoRes u "networkidle2" 30000 with
    | error e => simp [performanceEntriesBody, hg]
    | ok v => simp [performanceEntriesBody, hg]
  · intro e he
    simp [performanceEntriesBody, he]
  · intro m c hc url wu t
    exact perfTail_no_goto ops m c hc url wu t
  · intro hmk e he
    have hbe : (mk == "") = false := beq_eq_false_iff_ne.mpr hmk
    simp [performanceEntriesBody, perfTail, markWait, hbe, he]
  · rfl
  · intro s hs
    simp [performanceEntriesBody, perfTail, markWait, perfRead, hs]

/-- Witness for C5 (amended): concrete oracles — a failing goto surfaces
alone with the network-idle options; no url and all-succeeding oracles
read the entries JSON; a failing poll on a non-empty mark surfaces the
timeout; an empty mark behaves as no mark even when the poll oracle would
fail. -/
theorem c5_witness :
    performanceEntriesBody failOps (some "https://example.com/") none =
      ([.goto "https://example.com/" "networkidle2" 30000], .error demoErr) ∧
    performanceEntriesBody demoOps none none =
      ([.getEntries], .ok ⟨[.text (some "[]")]⟩) ∧
    performanceEntriesBody failOps none (some "first-paint") =
      ([.waitForFn 5000 "first-paint"], .error demoErr) ∧
    performanceEntriesBody markFailOps none (some "") =
      performanceEntriesBody markFailOps none none := by
  refine ⟨?_, ?_, ?_, ?_⟩
  · exact (c5_performance_entries_conditional_navigation failOps
      "https://example.com/" "m").2.1 demoErr rfl
  · exact (c5_performance_entries_conditional_navigation demoOps
      "u" "m").2.2.2.2.2 "[]" rfl
  · exact (c5_performance_entries_conditional_navigation failOps
      "u" "first-paint").2.2.2.1 (by decide) demoErr rfl
  · exact (c5_performance_entries_conditional_navigation markFailOps
      "u" "m").2.2.2.2.1

/-- Counterexample for C5 as stated: the schema admits `mark = ""`
(a plain optional string), the JS `if (mark)` treats it as falsy, so the
call skips the poll entirely and succeeds even though the poll oracle
would have timed out — "if mark is given it polls ... failing with
Timeout otherwise" is false at this input. -/
theorem c5_counterexample :
    performanceEntriesBody markFailOps none (some "") =
      ([.getEntries], .ok ⟨[.text (some "[]")]⟩) ∧
    markFailOps.waitForFunctionRes 5000 "" = .error demoErr ∧
    LibCall.waitForFn 5000 "" ∉ (performanceEntriesBody markFailOps none (some "")).1 := by
  refine ⟨rfl, rfl, by decide⟩

/-- C6: `evaluate` runs the script as a wrapped function body in the page
(so a `return` is honoured by the in-page engine) and JSON-encodes the
result into the text field: "return 1+1" evaluating to 2 yields the JSON
text "2"; any successful value goes through `JSON.stringify`; a throwing
script surfaces as the ScriptError wrap embedding the original message. -/
theorem c6_evaluate_semantics (ops : PageOps) (script : String) :
    (ops.evalScript "return 1+1" = .ok (.num 2) →
      evaluateBody ops "return 1+1" =
        ([.evalInPage "return 1+1"], .ok ⟨[.text (some "2")]⟩)) ∧
    (∀ v, ops.evalScript script = .ok v →
      evaluateBody ops script = ([.evalInPage script], .ok ⟨[.text (jsonStringify v)]⟩)) ∧
    (∀ e, ops.evalScript script = .error e →
      (evaluateBody ops script).2 =
        .error ⟨.plain, "Script execution failed: " ++ e.message⟩ ∧
      strMentions e.message ("Script execution failed: " ++ e.message) = true) := by
  refine ⟨?_, ?_, ?_⟩
  · intro h
    simp [evaluateBody, h, jsonStringify]
    rfl
  · intro v hv
    simp [evaluateBody, hv]
  · intro e he
    exact ⟨by simp [evaluateBody, he], strMentions_append_right _ _⟩

/-- Witness for C6: the concrete demo oracle evaluates "return 1+1" to 2
and the handler returns the JSON text "2"; the failing oracle yields the
ScriptError wrap. -/
theorem c6_witness :
    evaluateBody demoOps "return 1+1" =
      ([.evalInPage "return 1+1"], .ok ⟨[.text (some "2")]⟩) ∧
    (evaluateBody failOps "throw new Error(1)").2 =
      .error ⟨.plain, "Script execution failed: " ++ demoErr.message⟩ := by
  refine ⟨?_, ?_⟩
  · exact (c6_evaluate_semantics demoOps "x").1 rfl
  · exact ((c6_evaluate_semantics failOps "throw new Error(1)").2.2 demoErr rfl).1

/-- C10: a script whose wrapped body evaluates to `undefined` (for
example one with no return statement) reports success with a content item
whose text field is the JS `undefined` (modelled `none`), because
`JSON.stringify(undefined)` is `undefined`; no ScriptError is raised. -/
theorem c10_evaluate_undefined_text (ops : PageOps) (script : String)
    (h : ops.evalScript script = .ok .undef) :
    evaluateBody ops script = ([.evalInPage script], .ok ⟨[.text none]⟩) ∧
    jsonStringify .undef = none := by
  exact ⟨by simp [evaluateBody, h, jsonStringify], rfl⟩

/-- Witness for C10: the demo oracle evaluates a no-return script to
`undefined` and the handler succeeds with an undefined text field. -/
theorem c10_witness :
    evaluateBody demoOps "document.title" =
      ([.evalInPage "document.title"], .ok ⟨[.text none]⟩) :=
  (c10_evaluate_undefined_text demoOps "document.title" rfl).1

/-- C7 (amended): on a live session, the audit runs against the explicit
url argument (else the active page's current URL) with the port taken
from the session's connection endpoint and exactly the five fixed
categories; on success each category's title and score is extracted into
a flat mapping returned JSON-encoded; but an audit-engine failure or a
malformed report surfaces as the raw underlying error, untouched. -/
theorem c7_lighthouse_report (w : World) (s : SMState) (urlArg : Option String)
    (b : Browser) (p : Page) (port : Nat)
    (hb : s.globalBrowser = some b) (hc : b.connected = true)
    (hp : s.globalPage = some p) (hpo : p.closed = false)
    (hport : w.parsePort b.wsEndpoint = .ok port) :
    (((lighthouseTool w s urlArg).2.1).head? =
      some (.lighthouseRun (urlArg.getD p.url)
        ⟨"info", "json",
          ["performance", "accessibility", "best-practices", "seo", "pwa"], port⟩)) ∧
    (lighthouseTool w s urlArg).1 = s ∧
    (∀ r rep, w.lighthouseRes (urlArg.getD p.url)
        ⟨"info", "json",
          ["performance", "accessibility", "best-practices", "seo", "pwa"], port⟩ = .ok r →
      w.jsonParse r = .ok rep →
      (lighthouseTool w s urlArg).2.2 =
        .ok ⟨[.text (some (encodeScores
          (rep.categories.map (fun c => (c.title, c.score)))))]⟩) ∧
    (∀ e, w.lighthouseRes (urlArg.getD p.url)
        ⟨"info", "json",
          ["performance", "accessibility", "best-practices", "seo", "pwa"], port⟩ = .error e →
      (lighthouseTool w s urlArg).2.2 = .error e) ∧
    (∀ r e2, w.lighthouseRes (urlArg.getD p.url)
        ⟨"info", "json",
          ["performance", "accessibility", "best-practices", "seo", "pwa"], port⟩ = .ok r →
      w.jsonParse r = .error e2 →
      (lighthouseTool w s urlArg).2.2 = .error e2) := by
  have hgb : getBrowser w s = (.ok b, s) := by simp [getBrowser, hb, hc]
  have hgp : getPage w s = (.ok p, s) := by simp [getPage, hgb, hp, hpo]
  have htu : (match urlArg with | some u => u | none => p.url) = urlArg.getD p.url := by
    cases urlArg <;> rfl
  refine ⟨?_, ?_, ?_, ?_, ?_⟩
  · rcases hlr : w.lighthouseRes (urlArg.getD p.url)
        ⟨"info", "json",
          ["performance", "accessibility", "best-practices", "seo", "pwa"], port⟩ with e | r
    · simp [lighthouseTool, hgb, hgp, hport, htu, hlr]
    · rcases hjp : w.jsonParse r with e | rep <;>
        simp [lighthouseTool, hgb, hgp, hport, htu, hlr, hjp]
  · rcases hlr : w.lighthouseRes (urlArg.getD p.url)
        ⟨"info", "json",
          ["performance", "accessibility", "best-practices", "seo", "pwa"], port⟩ with e | r
    · simp [lighthouseTool, hgb, hgp, hport, htu, hlr]
    · rcases hjp : w.jsonParse r with e | rep <;>
        simp [lighthouseTool, hgb, hgp, hport, htu, hlr, hjp]
  · intro r rep hr hrep
    simp [lighthouseTool, hgb, hgp, hport, htu, hr, hrep]
  · intro e he
    simp [lighthouseTool, hgb, hgp, hport, htu, he]
  · intro r e2 hr he2
    simp [lighthouseTool, hgb, hgp, hport, htu, hr, he2]

/-- Witness for C7 (amended): on the concrete live session with no url
argument the audit targets the active page's URL with port 9222 and the
five categories, the two demo categories' titles and scores come back as
the flat mapping, and on the malformed-report world the raw parse error
surfaces. -/
theorem c7_witness :
    (lighthouseTool demoWorld demoLive none).2.2 =
      .ok ⟨[.text (some (encodeScores
        [("Performance", some ((9 : Rat) / 10)), ("Accessibility", none)]))]⟩ ∧
    ((lighthouseTool demoWorld demoLive none).2.1).head? =
      some (.lighthouseRun "https://example.com/"
        ⟨"info", "json",
          ["performance", "accessibility", "best-practices", "seo", "pwa"], 9222⟩) ∧
    (lighthouseTool lhBadReportWorld demoLive none).2.2 =
      .error ⟨.plain, "Unexpected token u in JSON at position 0"⟩ := by
  have h := c7_lighthouse_report demoWorld demoLive none demoBrowser demoPage 9222
    rfl rfl rfl rfl rfl
  have hbad := c7_lighthouse_report lhBadReportWorld demoLive none demoBrowser demoPage 9222
    rfl rfl rfl rfl rfl
  refine ⟨?_, ?_, ?_⟩
  · have h3 := h.2.2.1 "demo-report" demoReport rfl rfl
    simpa [demoReport] using h3
  · simpa [demoPage] using h.1
  · exact hbad.2.2.2.2 "demo-report"
      ⟨.plain, "Unexpected token u in JSON at position 0"⟩ rfl rfl

/-- Counterexample for C7 as stated: with a failing audit engine, or with
an engine whose report `JSON.parse` rejects, the primitive surfaces the
raw underlying error unchanged — there is no AuditFailed wrapping
anywhere in the handler. -/
theorem c7_counterexample :
    (lighthouseTool lhFailWorld demoLive (some "https://example.com/")).2.2 =
      .error ⟨.plain, "PROTOCOL_TIMEOUT"⟩ ∧
    (lighthouseTool lhBadReportWorld demoLive (some "https://example.com/")).2.2 =
      .error ⟨.plain, "Unexpected token u in JSON at position 0"⟩ ∧
    strMentions "Audit" "PROTOCOL_TIMEOUT" = false ∧
    strMentions "Audit" "Unexpected token u in JSON at position 0" = false := by
  refine ⟨rfl, rfl, by decide, by decide⟩

end McpPerf
